import Mathlib

/-!
# Verification of `viz_slots.py`

A shallow embedding of the core of `viz_slots.py`: the domain tables
(`DIST`, `SHELF_HEIGHT`, `WEIGHT`), the cost evaluator (`move_cost`), the
plan executor (`apply_move`), and the orchestrator (`visualize`, embedded
as `visualizeResult` over an already-parsed solver result, since the
external Prolog process is out of scope).

Python dictionaries are embedded as association lists with first-match
lookup (`lookupFirst`) and first-match update (`updFirst`): on the
unique-key lists that Python dictionaries produce these have exactly the
dictionary semantics, and all lemmas below hold for arbitrary lists.
In-place mutation becomes explicit state passing; a Python exception
becomes an `Except.error`, so an errored call by construction hands no
modified state back to the caller, matching the source where both
precondition checks precede both writes.
-/

namespace VizSlots

/-- First-match lookup in an association list: the value paired with the
first occurrence of the key, the semantics of a Python dict read. -/
def lookupFirst {α β : Type} [DecidableEq α] (k : α) : List (α × β) → Option β
  | [] => none
  | (a, b) :: rest => if a = k then some b else lookupFirst k rest

/-- First-match update in an association list: rewrite the value paired
with the first occurrence of the key, the semantics of a Python dict
write to an existing key (no entry is created when the key is absent;
in the source every write is preceded by a successful read). -/
def updFirst {α β : Type} [DecidableEq α] (k : α) (f : β → β) : List (α × β) → List (α × β)
  | [] => []
  | (a, b) :: rest => if a = k then (a, f b) :: rest else (a, b) :: updFirst k f rest

/-- A slot's content: `none` is Python's `None` ("empty"), `some item` an
occupying item. -/
abbrev Cell := Option String

/-- The scenario state: location → (slot position → optional item),
embedding `Dict[str, Dict[int, Optional[str]]]`. -/
abbrev Slots := List (String × List (Int × Cell))

/-- Read one cell. `none` means the location or position is not a key of
the state (a Python `KeyError`); `some v` is the stored optional item. -/
def getSlot (s : Slots) (loc : String) (pos : Int) : Option Cell :=
  (lookupFirst loc s).bind fun inner => lookupFirst pos inner

/-- Write one cell (first-match update at both levels). -/
def setSlot (s : Slots) (loc : String) (pos : Int) (v : Cell) : Slots :=
  updFirst loc (updFirst pos fun _ => v) s

/-- A move, the 6-element action list
`["move", sourceLoc, sourcePos, destLoc, destPos, block]` sent by the
planner; the tag is carried but never inspected, as in the source's
destructuring `_, sl, sp, dl, dp, block = act`. -/
structure Move where
  tag : String
  sl : String
  sp : Int
  dl : String
  dp : Int
  block : String
deriving DecidableEq, Repr

/-- The pairwise location distance table `DIST` of the source. -/
def DIST : List ((String × String) × Int) :=
  [(("a", "b"), 2), (("b", "a"), 2),
   (("a", "c"), 3), (("c", "a"), 3),
   (("b", "c"), 1), (("c", "b"), 1)]

/-- The shelf height table `SHELF_HEIGHT` of the source. -/
def SHELF_HEIGHT : List (Int × Int) := [(1, 1), (2, 3), (3, 5)]

/-- The block weight table `WEIGHT` of the source. -/
def WEIGHT : List (String × Int) := [("a", 1), ("b", 2), ("c", 3)]

/-- `DIST.get((sl, dl), 0)`: distance lookup with default 0 when the pair
is absent. -/
def distGet (p : String × String) : Int := (lookupFirst p DIST).getD 0

/-- An error of the cost evaluator: a Python `KeyError` raised by
`SHELF_HEIGHT[pos]` or `WEIGHT[block]` (the spec's `UnknownKey`). -/
inductive CostError
  | unknownHeight (pos : Int)
  | unknownWeight (item : String)
deriving DecidableEq, Repr

/-- The cost breakdown dictionary
`{"distance": d, "vertical": v, "weight": w}`. -/
structure Breakdown where
  distance : Int
  vertical : Int
  weight : Int
deriving DecidableEq, Repr

/-- `move_cost`: `cost = weight * (horizontal_distance + vertical_distance)`
with the breakdown. The distance lookup defaults to 0; the height lookups
(source position first, matching Python evaluation order) and the weight
lookup fail with `UnknownKey` on a miss. -/
def move_cost (act : Move) : Except CostError (Int × Breakdown) :=
  let d := distGet (act.sl, act.dl)
  match lookupFirst act.sp SHELF_HEIGHT with
  | none => .error (.unknownHeight act.sp)
  | some hs =>
    match lookupFirst act.dp SHELF_HEIGHT with
    | none => .error (.unknownHeight act.dp)
    | some hd =>
      match lookupFirst act.block WEIGHT with
      | none => .error (.unknownWeight act.block)
      | some w =>
        let v := |hs - hd|
        .ok (w * (d + v), ⟨d, v, w⟩)

/-- An error of `apply_move`: a missing state key (Python `KeyError`), or
one of the two `ValueError`s, i.e. the spec's
`PreconditionViolation{SourceMismatch | DestinationOccupied}`. -/
inductive ApplyError
  | keyError
  | sourceMismatch
  | destinationOccupied
deriving DecidableEq, Repr

/-- `apply_move`: check that the source slot holds the declared block and
that the destination slot is empty (in that order, reads before writes),
then set source to empty and destination to the block. -/
def apply_move (slots : Slots) (act : Move) : Except ApplyError Slots :=
  match getSlot slots act.sl act.sp with
  | none => .error .keyError
  | some cur =>
    if cur ≠ some act.block then .error .sourceMismatch
    else
      match getSlot slots act.dl act.dp with
      | none => .error .keyError
      | some dst =>
        if dst ≠ none then .error .destinationOccupied
        else .ok (setSlot (setSlot slots act.sl act.sp none) act.dl act.dp (some act.block))

/-- The items stored in one location's slot dictionary, in slot order. -/
def innerItems : List (Int × Cell) → List String
  | [] => []
  | (_, c) :: rest => c.toList ++ innerItems rest

/-- All items stored in a state, in construction order. -/
def itemsList : Slots → List String
  | [] => []
  | (_, m) :: rest => innerItems m ++ itemsList rest

/-- An error aborting `visualize`: an unknown scenario id raised by
`start_slots`, or an exception propagating out of `move_cost` or
`apply_move` during replay. -/
inductive VizError
  | unknownScenario (sid : String)
  | costError (e : CostError)
  | applyError (e : ApplyError)
deriving DecidableEq, Repr

/-- The parsed JSON result returned by the external planner, as consumed
by `visualize` (`ok`, `plan`, `cost`, `budget`, `goal`). -/
structure SolverResult where
  ok : Bool
  plan : List Move
  cost : Int
  budget : Int
  goal : List (String × String)
deriving DecidableEq, Repr

/-- `start_slots`: the hardcoded initial state per scenario id;
an unknown id raises. -/
def start_slots (sid : String) : Except VizError Slots :=
  if sid = "s1" then
    .ok [("a", [(1, some "a"), (2, some "b"), (3, none)]),
         ("b", [(1, some "c"), (2, none), (3, none)]),
         ("c", [(1, none), (2, none), (3, none)])]
  else if sid = "s2" then
    .ok [("a", [(1, some "c"), (2, some "b"), (3, none)]),
         ("b", [(1, some "a"), (2, none), (3, none)]),
         ("c", [(1, none), (2, none), (3, none)])]
  else if sid = "s3" then
    .ok [("a", [(1, some "a"), (2, some "b"), (3, some "c")]),
         ("b", [(1, none), (2, none), (3, none)]),
         ("c", [(1, none), (2, none), (3, none)])]
  else if sid = "s4" then
    .ok [("a", [(1, some "a"), (2, some "b"), (3, some "c")]),
         ("b", [(1, none), (2, none), (3, none)]),
         ("c", [(1, none), (2, none), (3, none)])]
  else .error (.unknownScenario sid)

/-- The figure title `f"{sid} (cost={...}, budget={...})"` shared by every
frame of a run. -/
def mkTitle (sid : String) (cost budget : Int) : String :=
  sid ++ " (cost=" ++ toString cost ++ ", budget=" ++ toString budget ++ ")"

/-- One call of `draw_grid`: the step index (the output key), the title,
the state drawn, and the optional move annotation. -/
structure Frame where
  step : Nat
  title : String
  slots : Slots
  currentMove : Option Move
deriving DecidableEq, Repr

/-- The data of the final textual summary printed by `visualize`: the
budget and plan length, the solver-reported total
(`Total cost (Prolog): ...`) and the independently recomputed total
(`Total cost (Python recompute): ...`). -/
structure Summary where
  budget : Int
  planSteps : Nat
  totalCostProlog : Int
  totalCostPython : Int
deriving DecidableEq, Repr

/-- The observable outcome of one `visualize` run: whether the
"No plan found" report was printed, the frames drawn, and the final
summary (absent on the no-plan path). -/
structure VizOutput where
  noPlan : Bool
  frames : List Frame
  summary : Option Summary
deriving DecidableEq, Repr

/-- The `for i, act in enumerate(plan, start=1)` loop of `visualize`:
per step, evaluate `move_cost`, apply the move, and draw the post-move
frame annotated with the move; accumulate the running cost. Any
exception propagates, aborting the remaining steps. -/
def replaySteps (title : String) (slots : Slots) (i : Nat) (acc : Int) :
    List Move → Except VizError (Slots × Int × List Frame)
  | [] => .ok (slots, acc, [])
  | act :: rest =>
    match move_cost act with
    | .error e => .error (.costError e)
    | .ok (c, _br) =>
      match apply_move slots act with
      | .error e => .error (.applyError e)
      | .ok slots' =>
        match replaySteps title slots' (i + 1) (acc + c) rest with
        | .error e => .error e
        | .ok (sf, total, frames) =>
          .ok (sf, total, Frame.mk i title slots' (some act) :: frames)

/-- `visualize` after the external planner call: if the result is not
`ok`, print "No plan found" and stop; otherwise build the initial state,
draw frame 0, replay the plan, and emit the final summary carrying the
solver-reported cost and the recomputed running total. -/
def visualizeResult (sid : String) (res : SolverResult) : Except VizError VizOutput :=
  if res.ok = false then .ok ⟨true, [], none⟩
  else
    match start_slots sid with
    | .error e => .error e
    | .ok slots0 =>
      let title := mkTitle sid res.cost res.budget
      match replaySteps title slots0 1 0 res.plan with
      | .error e => .error e
      | .ok (_, total, frames) =>
        .ok ⟨false, Frame.mk 0 title slots0 none :: frames,
             some ⟨res.budget, res.plan.length, res.cost, total⟩⟩

/-- The reverse of a move: source and destination roles swapped, same
item. -/
def reverseMove (act : Move) : Move := ⟨act.tag, act.dl, act.dp, act.sl, act.sp, act.block⟩

/-- The places where the orchestrator echos the solver-reported cost:
every frame title and the reported-cost field of the summary. -/
def echoCost (sid : String) (c b : Int) (out : VizOutput) : VizOutput :=
  ⟨out.noPlan,
   out.frames.map fun f => ⟨f.step, mkTitle sid c b, f.slots, f.currentMove⟩,
   out.summary.map fun s => ⟨s.budget, s.planSteps, c, s.totalCostPython⟩⟩

instance {ε α : Type} [DecidableEq ε] [DecidableEq α] : DecidableEq (Except ε α) := fun x y =>
  match x, y with
  | .error a, .error b =>
    if h : a = b then isTrue (congrArg Except.error h)
    else isFalse fun hc => h (Except.error.inj hc)
  | .error _, .ok _ => isFalse fun hc => Except.noConfusion hc
  | .ok _, .error _ => isFalse fun hc => Except.noConfusion hc
  | .ok a, .ok b =>
    if h : a = b then isTrue (congrArg Except.ok h)
    else isFalse fun hc => h (Except.ok.inj hc)

end VizSlots

namespace VizSlots

/-! ## Basic lemmas about first-match lookup and update -/

theorem lookupFirst_updFirst_same {α β : Type} [DecidableEq α] (k : α) (f : β → β) :
    ∀ xs : List (α × β), lookupFirst k (updFirst k f xs) = (lookupFirst k xs).map f := by
  intro xs
  induction xs with
  | nil => rfl
  | cons hd tl ih =>
    obtain ⟨a, b⟩ := hd
    by_cases h : a = k <;> simp [lookupFirst, updFirst, h, ih]

theorem lookupFirst_updFirst_ne {α β : Type} [DecidableEq α] {k k' : α} (f : β → β)
    (h : k' ≠ k) :
    ∀ xs : List (α × β), lookupFirst k (updFirst k' f xs) = lookupFirst k xs := by
  intro xs
  induction xs with
  | nil => rfl
  | cons hd tl ih =>
    obtain ⟨a, b⟩ := hd
    by_cases ha : a = k'
    · subst ha
      simp [lookupFirst, updFirst, h, ih]
    · by_cases hb : a = k <;> simp [lookupFirst, updFirst, ha, hb, Ne.symm h, ih]

theorem updFirst_updFirst_same {α β : Type} [DecidableEq α] (k : α) (f g : β → β) :
    ∀ xs : List (α × β), updFirst k f (updFirst k g xs) = updFirst k (f ∘ g) xs := by
  intro xs
  induction xs with
  | nil => rfl
  | cons hd tl ih =>
    obtain ⟨a, b⟩ := hd
    by_cases h : a = k <;> simp [updFirst, h, ih]

theorem updFirst_comm {α β : Type} [DecidableEq α] {k k' : α} (f g : β → β)
    (h : k ≠ k') :
    ∀ xs : List (α × β), updFirst k f (updFirst k' g xs) = updFirst k' g (updFirst k f xs) := by
  intro xs
  induction xs with
  | nil => rfl
  | cons hd tl ih =>
    obtain ⟨a, b⟩ := hd
    by_cases ha : a = k
    · subst ha
      simp [updFirst, h, Ne.symm h, ih]
    · by_cases hb : a = k' <;> simp [updFirst, ha, hb, Ne.symm h, ih]

theorem updFirst_eq_self {α β : Type} [DecidableEq α] {k : α} {f : β → β} :
    ∀ {xs : List (α × β)} {v : β}, lookupFirst k xs = some v → f v = v →
      updFirst k f xs = xs := by
  intro xs
  induction xs with
  | nil => intro v h; simp [lookupFirst] at h
  | cons hd tl ih =>
    obtain ⟨a, b⟩ := hd
    intro v hlk hf
    by_cases h : a = k
    · simp [lookupFirst, h] at hlk
      subst hlk
      simp [updFirst, h, hf]
    · simp [lookupFirst, h] at hlk
      simp [updFirst, h, ih hlk hf]

/-! ## Lemmas about `getSlot` / `setSlot` -/

theorem getSlot_setSlot_same {s : Slots} {loc : String} {pos : Int} {old : Cell}
    (h : getSlot s loc pos = some old) (v : Cell) :
    getSlot (setSlot s loc pos v) loc pos = some v := by
  unfold getSlot setSlot at *
  rw [lookupFirst_updFirst_same]
  cases hl : lookupFirst loc s with
  | none => simp [hl] at h
  | some inner =>
    simp [hl] at h ⊢
    rw [lookupFirst_updFirst_same]
    simp [h]

theorem getSlot_setSlot_ne {s : Slots} {loc loc' : String} {pos pos' : Int}
    (h : (loc', pos') ≠ (loc, pos)) (v : Cell) :
    getSlot (setSlot s loc pos v) loc' pos' = getSlot s loc' pos' := by
  unfold getSlot setSlot
  by_cases hl : loc = loc'
  · subst hl
    have hp : pos' ≠ pos := by
      intro hc; exact h (by rw [hc])
    rw [lookupFirst_updFirst_same]
    cases hi : lookupFirst loc s with
    | none => simp
    | some inner =>
      simp
      rw [lookupFirst_updFirst_ne _ (Ne.symm hp)]
  · rw [lookupFirst_updFirst_ne _ hl]

theorem setSlot_eq_self {s : Slots} {loc : String} {pos : Int} {v : Cell}
    (h : getSlot s loc pos = some v) : setSlot s loc pos v = s := by
  unfold getSlot at h
  unfold setSlot
  cases hl : lookupFirst loc s with
  | none => simp [hl] at h
  | some inner =>
    simp [hl] at h
    exact updFirst_eq_self hl (updFirst_eq_self h rfl)

theorem setSlot_setSlot_same (s : Slots) (l : String) (p : Int) (v w : Cell) :
    setSlot (setSlot s l p v) l p w = setSlot s l p w := by
  unfold setSlot
  rw [updFirst_updFirst_same]
  congr 1
  funext m
  show updFirst p (fun _ => w) (updFirst p (fun _ => v) m) = updFirst p (fun _ => w) m
  rw [updFirst_updFirst_same]
  rfl

theorem setSlot_comm {l l' : String} {p p' : Int} (s : Slots) (v w : Cell)
    (h : (l, p) ≠ (l', p')) :
    setSlot (setSlot s l p v) l' p' w = setSlot (setSlot s l' p' w) l p v := by
  unfold setSlot
  by_cases hl : l = l'
  · subst hl
    have hp : p ≠ p' := fun hc => h (by rw [hc])
    rw [updFirst_updFirst_same, updFirst_updFirst_same]
    congr 1
    funext m
    show updFirst p' (fun _ => w) (updFirst p (fun _ => v) m) =
      updFirst p (fun _ => v) (updFirst p' (fun _ => w) m)
    exact updFirst_comm _ _ (Ne.symm hp) m
  · exact updFirst_comm _ _ (fun hc => hl hc.symm) s

/-! ## Inversion of a successful `apply_move` -/

theorem apply_move_ok {slots s' : Slots} {act : Move}
    (h : apply_move slots act = .ok s') :
    getSlot slots act.sl act.sp = some (some act.block) ∧
    getSlot slots act.dl act.dp = some none ∧
    s' = setSlot (setSlot slots act.sl act.sp none) act.dl act.dp (some act.block) := by
  unfold apply_move at h
  cases hsrc : getSlot slots act.sl act.sp with
  | none => simp [hsrc] at h
  | some cur =>
    simp [hsrc] at h
    by_cases hcur : cur = some act.block
    · subst hcur
      simp at h
      cases hdst : getSlot slots act.dl act.dp with
      | none => simp [hdst] at h
      | some dst =>
        simp [hdst] at h
        by_cases hd : dst = none
        · subst hd
          simp at h
          exact ⟨rfl, rfl, h.symm⟩
        · simp [hd] at h
    · simp [hcur] at h

theorem apply_move_ok_ne {slots s' : Slots} {act : Move}
    (h : apply_move slots act = .ok s') :
    (act.sl, act.sp) ≠ (act.dl, act.dp) := by
  obtain ⟨hsrc, hdst, -⟩ := apply_move_ok h
  intro hc
  rw [show act.sl = act.dl from congrArg Prod.fst hc,
    show act.sp = act.dp from congrArg Prod.snd hc, hdst] at hsrc
  exact Option.noConfusion (Option.some.inj hsrc)

/-! ## Counting items, for the conservation property -/

theorem count_innerItems_updFirst (x : String) (k : Int) (w : Cell) :
    ∀ {m : List (Int × Cell)} {v : Cell}, lookupFirst k m = some v →
      List.count x (innerItems (updFirst k (fun _ => w) m)) + List.count x v.toList =
      List.count x (innerItems m) + List.count x w.toList := by
  intro m
  induction m with
  | nil => intro v h; simp [lookupFirst] at h
  | cons hd tl ih =>
    obtain ⟨a, b⟩ := hd
    intro v h
    by_cases ha : a = k
    · simp [lookupFirst, ha] at h
      subst h
      simp [updFirst, ha, innerItems, List.count_append]
      omega
    · simp [lookupFirst, ha] at h
      simp only [updFirst, if_neg ha, innerItems, List.count_append]
      have := ih h
      omega

theorem count_itemsList_setSlot (x : String) (loc : String) (pos : Int) (w : Cell) :
    ∀ {s : Slots} {v : Cell}, getSlot s loc pos = some v →
      List.count x (itemsList (setSlot s loc pos w)) + List.count x v.toList =
      List.count x (itemsList s) + List.count x w.toList := by
  intro s
  induction s with
  | nil => intro v h; simp [getSlot, lookupFirst] at h
  | cons hd tl ih =>
    obtain ⟨a, m⟩ := hd
    intro v h
    by_cases ha : a = loc
    · have hm : lookupFirst pos m = some v := by
        simp [getSlot, lookupFirst, ha] at h
        exact h
      simp only [setSlot, updFirst, if_pos ha, itemsList, List.count_append]
      have := count_innerItems_updFirst x pos w hm
      omega
    · have h' : getSlot tl loc pos = some v := by
        simp [getSlot, lookupFirst, ha] at h ⊢
        exact h
      simp only [setSlot, updFirst, if_neg ha, itemsList, List.count_append]
      have h2 := ih h'
      simp only [setSlot] at h2
      omega

/-! ## Facts about the tables and the replay loop -/

/-- No location is at a positive distance from itself: every key of `DIST`
has two distinct components, so the pair `(x, x)` is never found and the
distance lookup falls back to the default 0. -/
theorem distGet_self (x : String) : distGet (x, x) = 0 := by
  have h : ∀ u v : String, u ≠ v → ((u, v) : String × String) ≠ (x, x) := by
    intro u v huv hc
    exact huv ((congrArg Prod.fst hc).trans (congrArg Prod.snd hc).symm)
  simp only [distGet, DIST, lookupFirst]
  rw [if_neg (h "a" "b" (by decide)), if_neg (h "b" "a" (by decide)),
    if_neg (h "a" "c" (by decide)), if_neg (h "c" "a" (by decide)),
    if_neg (h "b" "c" (by decide)), if_neg (h "c" "b" (by decide))]
  rfl

/-- The replay loop threads the title only into the frames it draws: a
run with another title is the same run with the titles rewritten. -/
theorem replaySteps_map_title (t t' : String) :
    ∀ (plan : List Move) (slots : Slots) (i : Nat) (acc : Int),
      replaySteps t' slots i acc plan =
        (replaySteps t slots i acc plan).map fun r =>
          (r.1, r.2.1, r.2.2.map fun f => Frame.mk f.step t' f.slots f.currentMove) := by
  intro plan
  induction plan with
  | nil => intro slots i acc; rfl
  | cons act rest ih =>
    intro slots i acc
    cases hmc : move_cost act with
    | error e => simp [replaySteps, hmc, Except.map]
    | ok cbr =>
      obtain ⟨c, br⟩ := cbr
      cases ham : apply_move slots act with
      | error e => simp [replaySteps, hmc, ham, Except.map]
      | ok slots' =>
        simp only [replaySteps, hmc, ham]
        rw [ih slots' (i + 1) (acc + c)]
        cases replaySteps t slots' (i + 1) (acc + c) rest with
        | error e => rfl
        | ok r =>
          obtain ⟨sf, total, frames⟩ := r
          rfl

/-! ## Claim theorems -/

/-- C2: for every move whose slot positions are in the height table and
whose item is in the weight table, `move_cost` returns
`weight(item) * (distance(sourceLoc, destLoc) + |height(sourceSlot) -
height(destSlot)|)` together with that breakdown; in particular the move
`["move","a",1,"c",2,"a"]` costs `1*(3+2) = 5`, and applying it to a
state with `a:1="a"` and `c:2` empty leaves `a:1` empty and `c:2="a"`. -/
theorem C2_cost_formula_and_example :
    (∀ (act : Move) (hs hd w : Int),
      lookupFirst act.sp SHELF_HEIGHT = some hs →
      lookupFirst act.dp SHELF_HEIGHT = some hd →
      lookupFirst act.block WEIGHT = some w →
      move_cost act =
        .ok (w * (distGet (act.sl, act.dl) + |hs - hd|),
          ⟨distGet (act.sl, act.dl), |hs - hd|, w⟩)) ∧
    move_cost ⟨"move", "a", 1, "c", 2, "a"⟩ = .ok (5, ⟨3, 2, 1⟩) ∧
    apply_move [("a", [(1, some "a"), (2, none)]), ("c", [(1, none), (2, none)])]
        ⟨"move", "a", 1, "c", 2, "a"⟩ =
      .ok [("a", [(1, none), (2, none)]), ("c", [(1, none), (2, some "a")])] := by
  refine ⟨?_, by decide, by decide⟩
  intro act hs hd w h1 h2 h3
  simp [move_cost, h1, h2, h3]

/-- C2 witness: the general formula applied at the concrete move
`["move","b",2,"c",3,"b"]` (heights 3 and 5, weight 2). -/
theorem C2_cost_formula_and_example_witness :
    move_cost ⟨"move", "b", 2, "c", 3, "b"⟩ =
      .ok (2 * (distGet ("b", "c") + |(3 : Int) - 5|),
        ⟨distGet ("b", "c"), |(3 : Int) - 5|, 2⟩) :=
  C2_cost_formula_and_example.1 ⟨"move", "b", 2, "c", 3, "b"⟩ 3 5 2
    (by decide) (by decide) (by decide)

/-- C3: a move whose source slot does not currently hold the declared
item fails with the SourceMismatch `ValueError`; a move whose source
check passes but whose destination slot is occupied fails with the
DestinationOccupied `ValueError` (the source check is performed first in
the code, so it takes priority when both preconditions are violated).
In this pure embedding an error outcome returns no new state — matching
the source, where both checks precede both writes — so the failing move
is never applied, not even partially. -/
theorem C3_precondition_violations (slots : Slots) (act : Move) :
    (∀ cur, getSlot slots act.sl act.sp = some cur → cur ≠ some act.block →
      apply_move slots act = .error .sourceMismatch) ∧
    (getSlot slots act.sl act.sp = some (some act.block) →
      ∀ it, getSlot slots act.dl act.dp = some (some it) →
        apply_move slots act = .error .destinationOccupied) := by
  constructor
  · intro cur h hne
    simp [apply_move, h, hne]
  · intro h it hd
    simp [apply_move, h, hd]

/-- C3 witness: a source mismatch (slot holds "b", move declares "a") and
a destination occupied (by "c") at concrete states. -/
theorem C3_precondition_violations_witness :
    apply_move [("a", [(1, some "b"), (2, some "c")])] ⟨"move", "a", 1, "a", 2, "a"⟩ =
      .error .sourceMismatch ∧
    apply_move [("a", [(1, some "a"), (2, some "c")])] ⟨"move", "a", 1, "a", 2, "a"⟩ =
      .error .destinationOccupied :=
  ⟨(C3_precondition_violations _ _).1 (some "b") (by decide) (by decide),
   (C3_precondition_violations _ _).2 (by decide) "c" (by decide)⟩

/-- C4: for every state and every valid move (source slot holds the
declared item, destination slot empty, source cell distinct from
destination cell), applying the move succeeds, and then applying the
reverse move (roles swapped, same item) succeeds and restores the
original state exactly. -/
theorem C4_round_trip (slots : Slots) (act : Move)
    (hsrc : getSlot slots act.sl act.sp = some (some act.block))
    (hdst : getSlot slots act.dl act.dp = some none)
    (hne : (act.sl, act.sp) ≠ (act.dl, act.dp)) :
    apply_move slots act =
      .ok (setSlot (setSlot slots act.sl act.sp none) act.dl act.dp (some act.block)) ∧
    apply_move (setSlot (setSlot slots act.sl act.sp none) act.dl act.dp (some act.block))
        (reverseMove act) = .ok slots := by
  refine ⟨by simp [apply_move, hsrc, hdst], ?_⟩
  have hX1dst : getSlot (setSlot slots act.sl act.sp none) act.dl act.dp = some none := by
    rw [getSlot_setSlot_ne (Ne.symm hne), hdst]
  have hrsrc : getSlot (setSlot (setSlot slots act.sl act.sp none) act.dl act.dp
      (some act.block)) act.dl act.dp = some (some act.block) :=
    getSlot_setSlot_same hX1dst _
  have hX1src : getSlot (setSlot slots act.sl act.sp none) act.sl act.sp = some none :=
    getSlot_setSlot_same hsrc _
  have hrdst : getSlot (setSlot (setSlot slots act.sl act.sp none) act.dl act.dp
      (some act.block)) act.sl act.sp = some none := by
    rw [getSlot_setSlot_ne hne, hX1src]
  simp [apply_move, reverseMove, hrsrc, hrdst]
  rw [setSlot_setSlot_same, setSlot_comm slots none none hne, setSlot_eq_self hdst,
    setSlot_setSlot_same, setSlot_eq_self hsrc]

/-- C4 witness: the round trip at a concrete state and move
(a:1 holds "a", a:2 empty). -/
theorem C4_round_trip_witness :
    apply_move [("a", [(1, some "a"), (2, none)])] ⟨"move", "a", 1, "a", 2, "a"⟩ =
      .ok (setSlot (setSlot [("a", [(1, some "a"), (2, none)])] "a" 1 none) "a" 2 (some "a")) ∧
    apply_move (setSlot (setSlot [("a", [(1, some "a"), (2, none)])] "a" 1 none) "a" 2 (some "a"))
        (reverseMove ⟨"move", "a", 1, "a", 2, "a"⟩) =
      .ok [("a", [(1, some "a"), (2, none)])] :=
  C4_round_trip _ _ (by decide) (by decide) (by decide)

/-- C5: any valid move (one that `apply_move` accepts) leaves the
multiset of items occupying slots unchanged, and every slot of the
resulting state holds at most one item (a cell stores a single optional
item, exactly as the Python state stores a single `Optional[str]`). -/
theorem C5_item_conservation (slots s' : Slots) (act : Move)
    (h : apply_move slots act = .ok s') :
    (↑(itemsList s') : Multiset String) = ↑(itemsList slots) ∧
    ∀ l p v, getSlot s' l p = some v → v.toList.length ≤ 1 := by
  obtain ⟨hsrc, hdst, hs'⟩ := apply_move_ok h
  have hne := apply_move_ok_ne h
  constructor
  · rw [Multiset.coe_eq_coe, List.perm_iff_count]
    intro x
    have hX1dst : getSlot (setSlot slots act.sl act.sp none) act.dl act.dp = some none := by
      rw [getSlot_setSlot_ne (Ne.symm hne), hdst]
    have e1 := count_itemsList_setSlot x act.sl act.sp none hsrc
    have e2 := count_itemsList_setSlot x act.dl act.dp (some act.block) hX1dst
    rw [hs']
    omega
  · intro l p v hv
    cases v <;> simp [Option.toList]

/-- C5 witness: the conservation part at a concrete valid move
(a:1="a" moved to c:2). -/
theorem C5_item_conservation_witness :
    (↑(itemsList [("a", [(1, none), (2, none)]), ("c", [(1, none), (2, some "a")])]) :
        Multiset String) =
      ↑(itemsList [("a", [(1, some "a"), (2, none)]), ("c", [(1, none), (2, none)])]) :=
  (C5_item_conservation _ _ ⟨"move", "a", 1, "c", 2, "a"⟩ (by decide)).1

/-- C6: a valid move changes the state only at the two touched cells:
the source slot becomes empty, the destination slot becomes occupied by
the item, and every other (location, slot) cell keeps exactly its
previous value. -/
theorem C6_frame_effect (slots s' : Slots) (act : Move)
    (h : apply_move slots act = .ok s') :
    getSlot s' act.sl act.sp = some none ∧
    getSlot s' act.dl act.dp = some (some act.block) ∧
    ∀ l p, (l, p) ≠ (act.sl, act.sp) → (l, p) ≠ (act.dl, act.dp) →
      getSlot s' l p = getSlot slots l p := by
  obtain ⟨hsrc, hdst, hs'⟩ := apply_move_ok h
  have hne := apply_move_ok_ne h
  subst hs'
  refine ⟨?_, ?_, ?_⟩
  · rw [getSlot_setSlot_ne hne]
    exact getSlot_setSlot_same hsrc none
  · have hX1dst : getSlot (setSlot slots act.sl act.sp none) act.dl act.dp = some none := by
      rw [getSlot_setSlot_ne (Ne.symm hne), hdst]
    exact getSlot_setSlot_same hX1dst _
  · intro l p hl hd
    rw [getSlot_setSlot_ne hd, getSlot_setSlot_ne hl]

/-- C6 witness: the two touched cells after the concrete move a:1 → c:2
(the untouched-cell part is applied at cell b-less state a:2). -/
theorem C6_frame_effect_witness :
    getSlot [("a", [(1, none), (2, none)]), ("c", [(1, none), (2, some "a")])] "a" 1 =
      some none ∧
    getSlot [("a", [(1, none), (2, none)]), ("c", [(1, none), (2, some "a")])] "c" 2 =
      some (some "a") ∧
    getSlot [("a", [(1, none), (2, none)]), ("c", [(1, none), (2, some "a")])] "a" 2 =
      getSlot [("a", [(1, some "a"), (2, none)]), ("c", [(1, none), (2, none)])] "a" 2 :=
  ⟨(C6_frame_effect [("a", [(1, some "a"), (2, none)]), ("c", [(1, none), (2, none)])] _
      ⟨"move", "a", 1, "c", 2, "a"⟩ (by decide)).1,
   (C6_frame_effect [("a", [(1, some "a"), (2, none)]), ("c", [(1, none), (2, none)])] _
      ⟨"move", "a", 1, "c", 2, "a"⟩ (by decide)).2.1,
   (C6_frame_effect [("a", [(1, some "a"), (2, none)]), ("c", [(1, none), (2, none)])] _
      ⟨"move", "a", 1, "c", 2, "a"⟩ (by decide)).2.2 "a" 2 (by decide) (by decide)⟩

/-- C7: in `move_cost`, a distance lookup for a location pair absent from
`DIST` silently uses the default 0, while a height lookup for a position
absent from `SHELF_HEIGHT`, or a weight lookup for an item absent from
`WEIGHT`, raises a `KeyError` (the spec's `UnknownKey`); the source
height is looked up before the destination height, which is looked up
before the weight. -/
theorem C7_lookup_policy :
    (∀ (act : Move) (hs hd w : Int),
      lookupFirst (act.sl, act.dl) DIST = none →
      lookupFirst act.sp SHELF_HEIGHT = some hs →
      lookupFirst act.dp SHELF_HEIGHT = some hd →
      lookupFirst act.block WEIGHT = some w →
      move_cost act = .ok (w * (0 + |hs - hd|), ⟨0, |hs - hd|, w⟩)) ∧
    (∀ act : Move, lookupFirst act.sp SHELF_HEIGHT = none →
      move_cost act = .error (.unknownHeight act.sp)) ∧
    (∀ (act : Move) (hs : Int), lookupFirst act.sp SHELF_HEIGHT = some hs →
      lookupFirst act.dp SHELF_HEIGHT = none →
      move_cost act = .error (.unknownHeight act.dp)) ∧
    (∀ (act : Move) (hs hd : Int), lookupFirst act.sp SHELF_HEIGHT = some hs →
      lookupFirst act.dp SHELF_HEIGHT = some hd →
      lookupFirst act.block WEIGHT = none →
      move_cost act = .error (.unknownWeight act.block)) := by
  refine ⟨?_, ?_, ?_, ?_⟩
  · intro act hs hd w habs h1 h2 h3
    simp [move_cost, distGet, habs, h1, h2, h3]
  · intro act h1
    simp [move_cost, h1]
  · intro act hs h1 h2
    simp [move_cost, h1, h2]
  · intro act hs hd h1 h2 h3
    simp [move_cost, h1, h2, h3]

/-- C7 witness: the default-0 distance at the unknown pair (q, r), and
the three `UnknownKey` failures at position 7, position 9 and item "z". -/
theorem C7_lookup_policy_witness :
    move_cost ⟨"move", "q", 1, "r", 2, "a"⟩ =
      .ok (1 * (0 + |(1 : Int) - 3|), ⟨0, |(1 : Int) - 3|, 1⟩) ∧
    move_cost ⟨"move", "a", 7, "c", 2, "a"⟩ = .error (.unknownHeight 7) ∧
    move_cost ⟨"move", "a", 1, "c", 9, "a"⟩ = .error (.unknownHeight 9) ∧
    move_cost ⟨"move", "a", 1, "c", 2, "z"⟩ = .error (.unknownWeight "z") :=
  ⟨C7_lookup_policy.1 ⟨"move", "q", 1, "r", 2, "a"⟩ 1 3 1
      (by decide) (by decide) (by decide) (by decide),
   C7_lookup_policy.2.1 ⟨"move", "a", 7, "c", 2, "a"⟩ (by decide),
   C7_lookup_policy.2.2.1 ⟨"move", "a", 1, "c", 9, "a"⟩ 1 (by decide) (by decide),
   C7_lookup_policy.2.2.2 ⟨"move", "a", 1, "c", 2, "z"⟩ 1 3
      (by decide) (by decide) (by decide)⟩

/-- C10: a self-move (source cell equal to destination cell) whose source
slot holds the declared item always fails with DestinationOccupied — the
occupied source is the destination — so it can never succeed; yet its
evaluated cost is 0, because no pair `(x, x)` is a key of `DIST` (the
horizontal distance defaults to 0) and the vertical offset
`|height(p) - height(p)|` is 0. -/
theorem C10_self_move (slots : Slots) (act : Move)
    (hl : act.sl = act.dl) (hp : act.sp = act.dp)
    (hsrc : getSlot slots act.sl act.sp = some (some act.block)) :
    apply_move slots act = .error .destinationOccupied ∧
    ∀ hs w : Int, lookupFirst act.sp SHELF_HEIGHT = some hs →
      lookupFirst act.block WEIGHT = some w →
      move_cost act = .ok (0, ⟨0, 0, w⟩) := by
  constructor
  · have hdst : getSlot slots act.dl act.dp = some (some act.block) := by
      rw [← hl, ← hp]; exact hsrc
    simp [apply_move, hsrc, hdst]
  · intro hs w h1 h2
    have hd : distGet (act.sl, act.dl) = 0 := by
      rw [← hl]; exact distGet_self act.sl
    have h1' : lookupFirst act.dp SHELF_HEIGHT = some hs := by
      rw [← hp]; exact h1
    simp [move_cost, h1, h1', h2, hd]

/-- C10 witness: the self-move of "a" at a:1 fails with
DestinationOccupied while costing 0. -/
theorem C10_self_move_witness :
    apply_move [("a", [(1, some "a")])] ⟨"move", "a", 1, "a", 1, "a"⟩ =
      .error .destinationOccupied ∧
    move_cost ⟨"move", "a", 1, "a", 1, "a"⟩ = .ok (0, ⟨0, 0, 1⟩) :=
  ⟨(C10_self_move [("a", [(1, some "a")])] ⟨"move", "a", 1, "a", 1, "a"⟩
      rfl rfl (by decide)).1,
   (C10_self_move [("a", [(1, some "a")])] ⟨"move", "a", 1, "a", 1, "a"⟩
      rfl rfl (by decide)).2 1 1 (by decide) (by decide)⟩

/-- C8: for a solver result with `ok = true` and an empty plan, the
orchestrator draws exactly one frame — step 0, the scenario's initial
state, no move annotation — and the recomputed total cost is exactly 0,
whatever value the solver-reported cost field holds (the reported value
is merely echoed in the title and the summary). -/
theorem C8_empty_plan (sid : String) (res : SolverResult) (s0 : Slots)
    (hok : res.ok = true) (hplan : res.plan = []) (hs : start_slots sid = .ok s0) :
    visualizeResult sid res =
      .ok ⟨false, [⟨0, mkTitle sid res.cost res.budget, s0, none⟩],
        some ⟨res.budget, 0, res.cost, 0⟩⟩ := by
  simp [visualizeResult, hok, hs, hplan, replaySteps]

/-- C8 witness: scenario s1 with an empty plan and a wildly wrong
reported cost 999 still yields one step-0 frame and recomputed total 0. -/
theorem C8_empty_plan_witness :
    visualizeResult "s1" ⟨true, [], 999, 20, []⟩ =
      .ok ⟨false,
        [⟨0, mkTitle "s1" 999 20,
          [("a", [(1, some "a"), (2, some "b"), (3, none)]),
           ("b", [(1, some "c"), (2, none), (3, none)]),
           ("c", [(1, none), (2, none), (3, none)])], none⟩],
        some ⟨20, 0, 999, 0⟩⟩ :=
  C8_empty_plan "s1" ⟨true, [], 999, 20, []⟩ _ rfl rfl (by decide)

/-- C9: for a solver result with `ok = false`, the orchestrator prints
the "No plan found" report and stops: no frames, no summary, and no
error is raised — this holds before the scenario id is even looked at,
so it is true for any id. -/
theorem C9_no_plan_report (sid : String) (res : SolverResult) (h : res.ok = false) :
    visualizeResult sid res = .ok ⟨true, [], none⟩ := by
  simp [visualizeResult, h]

/-- C9 witness: a negative result produces the no-plan report with zero
frames and no error, even for a scenario id `start_slots` would reject. -/
theorem C9_no_plan_report_witness :
    visualizeResult "zzz" ⟨false, [], 3, 20, []⟩ = .ok ⟨true, [], none⟩ :=
  C9_no_plan_report "zzz" ⟨false, [], 3, 20, []⟩ rfl

/-- C1 counterexample: the orchestrator surfaces no consistency result at
all. Replaying the empty plan of a solver result that reports cost 999
(recomputed total 0, so the two differ) terminates normally with exactly
this output — the complete observable outcome embedded from `visualize`:
frames plus the printed summary data — which contains the two totals but
no comparison, no CostMismatch flag and no equal/mismatch verdict of any
kind; the run whose reported cost 0 agrees with the recomputation
produces the very same output except where the reported number is
echoed (the title and the reported-cost summary field). -/
theorem C1_counterexample :
    visualizeResult "s1" ⟨true, [], 999, 20, []⟩ =
      .ok ⟨false,
        [⟨0, mkTitle "s1" 999 20,
          [("a", [(1, some "a"), (2, some "b"), (3, none)]),
           ("b", [(1, some "c"), (2, none), (3, none)]),
           ("c", [(1, none), (2, none), (3, none)])], none⟩],
        some ⟨20, 0, 999, 0⟩⟩ ∧
    visualizeResult "s1" ⟨true, [], 0, 20, []⟩ =
      .ok ⟨false,
        [⟨0, mkTitle "s1" 0 20,
          [("a", [(1, some "a"), (2, some "b"), (3, none)]),
           ("b", [(1, some "c"), (2, none), (3, none)]),
           ("c", [(1, none), (2, none), (3, none)])], none⟩],
        some ⟨20, 0, 0, 0⟩⟩ :=
  ⟨by decide, by decide⟩

/-- C1 (amended): after replaying a plan the orchestrator prints both
the solver-reported total cost and the independently recomputed total in
its final summary, but performs no comparison between them: no
equal/CostMismatch result exists, and changing the reported cost changes
the outcome only where that number is echoed (every frame title and the
reported-cost field of the summary), never the control flow, the frame
states or the recomputed total. -/
theorem C1_costs_echoed_not_compared (sid : String) (res : SolverResult) (c' : Int)
    (out : VizOutput) (hok : res.ok = true)
    (h : visualizeResult sid res = .ok out) :
    visualizeResult sid { res with cost := c' } = .ok (echoCost sid c' res.budget out) ∧
    out.summary.map Summary.totalCostProlog = some res.cost := by
  unfold visualizeResult at h ⊢
  have hc : ¬(res.ok = false) := by rw [hok]; simp
  rw [if_neg hc] at h
  have hc' : ¬(({ res with cost := c' } : SolverResult).ok = false) := hc
  rw [if_neg hc']
  cases hss : start_slots sid with
  | error e =>
    rw [hss] at h
    exact absurd h (by simp)
  | ok slots0 =>
    rw [hss] at h
    simp only at h ⊢
    rw [replaySteps_map_title (mkTitle sid res.cost res.budget)
      (mkTitle sid c' res.budget) res.plan slots0 1 0]
    cases hr : replaySteps (mkTitle sid res.cost res.budget) slots0 1 0 res.plan with
    | error e =>
      rw [hr] at h
      exact absurd h (by simp)
    | ok r =>
      obtain ⟨sf, total, frames⟩ := r
      rw [hr] at h
      simp only [Except.ok.injEq] at h
      subst h
      exact ⟨by simp [Except.map, echoCost], rfl⟩

/-- C1 (amended) witness: changing the reported cost of a concrete s1
run from 5 to 7 re-echos the number and changes nothing else; the
summary carries the reported cost verbatim. -/
theorem C1_costs_echoed_not_compared_witness :
    visualizeResult "s1" { (⟨true, [], 5, 20, []⟩ : SolverResult) with cost := 7 } =
      .ok (echoCost "s1" 7 20
        ⟨false,
          [⟨0, mkTitle "s1" 5 20,
            [("a", [(1, some "a"), (2, some "b"), (3, none)]),
             ("b", [(1, some "c"), (2, none), (3, none)]),
             ("c", [(1, none), (2, none), (3, none)])], none⟩],
          some ⟨20, 0, 5, 0⟩⟩) ∧
    (some (⟨20, 0, 5, 0⟩ : Summary)).map Summary.totalCostProlog = some 5 :=
  C1_costs_echoed_not_compared "s1" ⟨true, [], 5, 20, []⟩ 7 _ rfl (by decide)

end VizSlots
